import Mathlib

set_option maxRecDepth 10000
set_option maxHeartbeats 1000000

/-!
Shallow embedding of `src/main.py` (`SimpleHTTPServer`), a minimal HTTP server.

Modelling conventions:
* A Python `str` is a sequence of Unicode code points: we model it as `List Char`.
* Raw socket data is a byte sequence: `List Nat` (each entry < 256).
* CPython's strict `bytes.decode("utf8")` is modelled by `utf8Decode`
  (returns `none` exactly when CPython raises `UnicodeDecodeError`), and
  `str.encode("utf8")` by `utf8Encode`.
* Each connection is modelled by the byte string its first `conn.recv(1024)`
  call returns (the source issues exactly one `recv` per connection).
-/

/-- Code points of a Lean string literal, modelling a Python `str` literal. -/
def pyStr (s : String) : List Char := s.data

/-- Python `s.split(sep)` for a one-character separator: splits at every
occurrence of the separator and keeps empty pieces, so that
`"".split(sep) == [""]` and a trailing separator yields a trailing `""`. -/
def splitChar (c : Char) : List Char → List (List Char)
  | [] => [[]]
  | x :: xs =>
    if x = c then [] :: splitChar c xs
    else
      match splitChar c xs with
      | [] => [[x]]
      | y :: ys => (x :: y) :: ys

/-- Helper for `natToChars`; fuel-driven so the kernel evaluates it. -/
def natToCharsAux : Nat → Nat → List Char → List Char
  | 0, _, acc => acc
  | fuel + 1, n, acc =>
    let d := Char.ofNat (48 + n % 10)
    if n < 10 then d :: acc else natToCharsAux fuel (n / 10) (d :: acc)

/-- Decimal rendering of a natural number, as a Python f-string
interpolates an `int`. -/
def natToChars (n : Nat) : List Char := natToCharsAux (n + 1) n []

/-- UTF-8 encoding of one Unicode scalar value. -/
def utf8EncodeChar (c : Nat) : List Nat :=
  if c < 0x80 then [c]
  else if c < 0x800 then [0xC0 + c / 64, 0x80 + c % 64]
  else if c < 0x10000 then [0xE0 + c / 4096, 0x80 + c / 64 % 64, 0x80 + c % 64]
  else [0xF0 + c / 262144, 0x80 + c / 4096 % 64, 0x80 + c / 64 % 64, 0x80 + c % 64]

/-- UTF-8 encoding of a Python string (CPython `str.encode("utf8")`). -/
def utf8Encode (s : List Char) : List Nat := (s.map (fun c => utf8EncodeChar c.toNat)).flatten

/-- Fuel-driven strict UTF-8 decoder (CPython `bytes.decode("utf8")`):
rejects continuation errors, overlong forms, surrogates and values above
`U+10FFFF`.  `none` models an uncaught `UnicodeDecodeError`. -/
def utf8DecodeAux : Nat → List Nat → Option (List Char)
  | 0, [] => some []
  | 0, _ :: _ => none
  | _ + 1, [] => some []
  | fuel + 1, b :: rest =>
    if b ≤ 0x7F then
      (utf8DecodeAux fuel rest).map (fun cs => Char.ofNat b :: cs)
    else if 0xC2 ≤ b ∧ b ≤ 0xDF then
      match rest with
      | c1 :: rest1 =>
        if 0x80 ≤ c1 ∧ c1 ≤ 0xBF then
          (utf8DecodeAux fuel rest1).map
            (fun cs => Char.ofNat ((b - 0xC0) * 64 + (c1 - 0x80)) :: cs)
        else none
      | [] => none
    else if 0xE0 ≤ b ∧ b ≤ 0xEF then
      match rest with
      | c1 :: c2 :: rest2 =>
        if (0x80 ≤ c1 ∧ c1 ≤ 0xBF) ∧ (0x80 ≤ c2 ∧ c2 ≤ 0xBF)
            ∧ (b ≠ 0xE0 ∨ 0xA0 ≤ c1) ∧ (b ≠ 0xED ∨ c1 ≤ 0x9F) then
          (utf8DecodeAux fuel rest2).map
            (fun cs => Char.ofNat ((b - 0xE0) * 4096 + (c1 - 0x80) * 64 + (c2 - 0x80)) :: cs)
        else none
      | _ => none
    else if 0xF0 ≤ b ∧ b ≤ 0xF4 then
      match rest with
      | c1 :: c2 :: c3 :: rest3 =>
        if (0x80 ≤ c1 ∧ c1 ≤ 0xBF) ∧ (0x80 ≤ c2 ∧ c2 ≤ 0xBF) ∧ (0x80 ≤ c3 ∧ c3 ≤ 0xBF)
            ∧ (b ≠ 0xF0 ∨ 0x90 ≤ c1) ∧ (b ≠ 0xF4 ∨ c1 ≤ 0x8F) then
          (utf8DecodeAux fuel rest3).map
            (fun cs =>
              Char.ofNat ((b - 0xF0) * 262144 + (c1 - 0x80) * 4096
                + (c2 - 0x80) * 64 + (c3 - 0x80)) :: cs)
        else none
      | _ => none
    else none

/-- Strict UTF-8 decode of a byte string. -/
def utf8Decode (l : List Nat) : Option (List Char) := utf8DecodeAux l.length l

/-- The one Python exception the modelled code can raise:
`data.decode("utf8")` in `read_handler` (line 56 of `src/main.py`) is executed
before the `try` block, and the `except` clause catches only `TypeError`. -/
inductive PyError
  | unicodeDecodeError
  deriving DecidableEq

/-! ## The server of `src/main.py`, embedded

All `str` manipulation happens on decoded code points, exactly as in the
Python source.  The value interpolated for `{self.METHODS_MAP}` in the 405
branch is CPython's `dict` repr (it embeds run-dependent object addresses),
so the embedding carries it as the parameter `mrepr`. -/

/-- The keys of `METHODS_MAP` as built in `SimpleHTTPServer.__init__`. -/
def methods : List (List Char) :=
  [pyStr "GET", pyStr "POST", pyStr "PUT", pyStr "DELETE", pyStr "HEAD"]

/-- `SimpleHTTPServer._basic_ok` (lines 77-84): the `msg_len` guard mirrors
`len(msg) if msg else 0`, and the triple-quoted f-string serializes as
status line, two header lines, blank line, then `msg` plus a final `"\n"`.
Every call site passes a `str`, so `msg` is modelled as `List Char`. -/
def basicOk (msg rc : List Char) : List Char :=
  pyStr "HTTP/1.1 " ++ rc ++ pyStr "\r\nContent-Length: "
    ++ natToChars (if msg = [] then 0 else msg.length)
    ++ pyStr "\r\nContent-Type: text/html\r\n\r\n" ++ msg ++ pyStr "\n"

/-- `SimpleHTTPServer._basic_error` (lines 86-93): textually identical body
to `_basic_ok`, with default code `"400 Whoops"` at its only call site
overridden to `"500 Internal Server Error"`. -/
def basicError (msg rc : List Char) : List Char :=
  pyStr "HTTP/1.1 " ++ rc ++ pyStr "\r\nContent-Length: "
    ++ natToChars (if msg = [] then 0 else msg.length)
    ++ pyStr "\r\nContent-Type: text/html\r\n\r\n" ++ msg ++ pyStr "\n"

/-- `get_handler` ignores its `*args, **kwargs` and returns a constant. -/
def get_handler : List Char :=
  basicOk (pyStr "You called GET, Not Sure what to do next") (pyStr "200 Ok")

/-- `post_handler`, argument-insensitive like all built-in handlers. -/
def post_handler : List Char :=
  basicOk (pyStr "You called POST, Not Sure what to do next") (pyStr "200 Ok")

/-- `put_handler`, returning code `"201 Created"`. -/
def put_handler : List Char :=
  basicOk (pyStr "You called PUT, Not Sure what to do next") (pyStr "201 Created")

/-- `delete_handler`, returning code `"204 No Content"`. -/
def delete_handler : List Char :=
  basicOk (pyStr "You called DELETE, Not Sure what to do next") (pyStr "204 No Content")

/-- `head_handler`: calls `_basic_ok("")`, so `msg` is the empty string. -/
def head_handler : List Char := basicOk (pyStr "") (pyStr "200 Ok")

/-- `METHODS_MAP[start_line[0]](start_line, lines)`: the handlers discard
their arguments, so dispatch is a pure lookup on the method token.  Only
reached when the token is a key of `METHODS_MAP`. -/
def dispatchMethod (m : List Char) : List Char :=
  if m = pyStr "GET" then get_handler
  else if m = pyStr "POST" then post_handler
  else if m = pyStr "PUT" then put_handler
  else if m = pyStr "DELETE" then delete_handler
  else head_handler

/-- `lines = s_data.split("\n")` (line 58). -/
def linesOf (s : List Char) : List (List Char) := splitChar '\n' s

/-- `start_line = lines[0].split(" ")` (line 60); `split` always returns a
nonempty list, so `lines[0]` never raises. -/
def startLineOf (s : List Char) : List (List Char) :=
  splitChar ' ' ((linesOf s).headD [])

/-- `start_line[0]`, the method token. -/
def firstToken (s : List Char) : List Char := (startLineOf s).headD []

/-- The branching of `read_handler` (lines 58-75) after a successful decode.
The `except TypeError` arm around `lines[0].split(" ")` is unreachable in
CPython (`str.split` on a `str` receiver cannot raise `TypeError`), so it has
no counterpart here.  The final `if not response_data` test models Python
falsiness of the empty string. -/
def respond (mrepr : List Char) (sData : List Char) : List Char :=
  if firstToken sData ∈ methods then
    if dispatchMethod (firstToken sData) = [] then
      basicError (pyStr "Uhhh, something didn't work") (pyStr "500 Internal Server Error")
    else dispatchMethod (firstToken sData)
  else if (startLineOf sData).length < 3
      ∨ ¬ ((startLineOf sData).get? 2 = some (pyStr "HTTP/1.1")) then
    pyStr "HTTP/1.1 400 Bad request"
  else
    pyStr "HTTP/1.1 405 Method not allowed\nI only support " ++ mrepr ++ pyStr "\n\n"

/-- `read_handler(data)` (lines 55-75): `data.decode("utf8")` runs before the
`try` block, so a decode failure propagates as an uncaught
`UnicodeDecodeError`. -/
def readHandler (mrepr : List Char) (data : List Nat) : Except PyError (List Char) :=
  match utf8Decode data with
  | none => Except.error PyError.unicodeDecodeError
  | some sData => Except.ok (respond mrepr sData)

/-- `write_handler(conn, data)` (lines 95-98): sends the UTF-8 bytes of
`f"{data} \n"` and then calls `conn.close()`. -/
def writeHandler (data : List Char) : List Nat := utf8Encode (data ++ pyStr " \n")

/-- Split a wire message at the first `\r\n\r\n` (13,10,13,10) separator:
header bytes before it, body bytes after it. -/
def sepSplit : List Nat → List Nat × List Nat
  | 13 :: 10 :: 13 :: 10 :: rest => ([], rest)
  | b :: rest =>
    let p := sepSplit rest
    (b :: p.1, p.2)
  | [] => ([], [])

/-- Connection Session states relevant to the source: after `write_handler`
runs, `conn.close()` and the `with conn:` block exit both close the stream. -/
inductive SessionState
  | Idle
  | Closed
  deriving DecidableEq

/-- How the `serve` accept loop ends in the model. -/
inductive ServerExit
  | peerEmptyStop
  | crashed (e : PyError)
  deriving DecidableEq

/-- The body of `serve`'s `while True:` loop (lines 43-53) for one accepted
connection, given the successive byte strings `recv` would return on that
connection.  Exactly one `recv(1024)` is issued; `write_handler` closes the
stream, as does leaving the `with conn:` block, so the session never returns
to an idle state on the same stream and `chunks.tail` is never read. -/
def handleConnection (mrepr : List Char) (chunks : List (List Nat)) :
    Except PyError (List (List Nat) × SessionState) :=
  let data := chunks.headD []
  if data = [] then Except.ok ([], SessionState.Closed)
  else (readHandler mrepr data).map (fun r => ([writeHandler r], SessionState.Closed))

/-- `serve` (lines 38-53): iterate over accepted connections, each modelled
by its first `recv` result; an empty `recv` hits `break` (the loop exits and
`"Server stopping"` is printed), and an exception out of `read_handler`
aborts the loop.  Returns the wire responses written and how the loop ended
(`none` means the modelled connection supply was exhausted while the loop
would keep accepting). -/
def serveLoop (mrepr : List Char) : List (List Nat) → List (List Nat) × Option ServerExit
  | [] => ([], none)
  | d :: rest =>
    if d = [] then ([], some ServerExit.peerEmptyStop)
    else
      match readHandler mrepr d with
      | Except.error e => ([], some (ServerExit.crashed e))
      | Except.ok r =>
        let out := serveLoop mrepr rest
        (writeHandler r :: out.1, out.2)

/-! ## Helper lemmas -/

theorem utf8Encode_append (a b : List Char) :
    utf8Encode (a ++ b) = utf8Encode a ++ utf8Encode b := by
  simp [utf8Encode]

theorem one_le_utf8EncodeChar_length (c : Nat) : 1 ≤ (utf8EncodeChar c).length := by
  unfold utf8EncodeChar
  split
  · simp
  · split
    · simp
    · split <;> simp

theorem length_le_utf8Encode_length (s : List Char) :
    s.length ≤ (utf8Encode s).length := by
  induction s with
  | nil => simp [utf8Encode]
  | cons c t ih =>
    have h := one_le_utf8EncodeChar_length c.toNat
    simp only [utf8Encode, List.map_cons, List.flatten_cons, List.length_append,
      List.length_cons] at ih ⊢
    omega

theorem splitChar_ne_nil (c : Char) (s : List Char) : splitChar c s ≠ [] := by
  induction s with
  | nil => simp [splitChar]
  | cons x xs ih =>
    simp only [splitChar]
    split
    · simp
    · cases h : splitChar c xs <;> simp

/-- The first piece of a split at `c` of `line ++ c :: tail` is `line`,
provided `line` itself contains no `c`. -/
theorem splitChar_head_append (c : Char) (line tail : List Char) (h : c ∉ line) :
    (splitChar c (line ++ c :: tail)).headD [] = line := by
  induction line with
  | nil => simp [splitChar]
  | cons x xs ih =>
    have hx : ¬ (x = c) := fun hxc => h (hxc ▸ List.mem_cons_self x xs)
    have hxs : c ∉ xs := fun hm => h (List.mem_cons_of_mem x hm)
    simp only [List.cons_append, splitChar, if_neg hx]
    cases hsp : splitChar c (xs ++ c :: tail) with
    | nil => exact absurd hsp (splitChar_ne_nil c _)
    | cons y ys =>
      have hih := ih hxs
      rw [hsp] at hih
      simp only [List.headD] at hih ⊢
      rw [hih]

theorem dispatchMethod_ne_nil (m : List Char) : dispatchMethod m ≠ [] := by
  unfold dispatchMethod
  split
  · decide
  · split
    · decide
    · split
      · decide
      · split <;> decide

/-- When the method token is a key of `METHODS_MAP`, `read_handler` returns
exactly the handler's constant output (the 500 fallback is never taken since
handler outputs are nonempty). -/
theorem respond_of_mem (mrepr s : List Char) (h : firstToken s ∈ methods) :
    respond mrepr s = dispatchMethod (firstToken s) := by
  unfold respond
  rw [if_pos h, if_neg (dispatchMethod_ne_nil _)]

/-! ## Claims -/

/-- C1 (counterexample): for the GET response written by `write_handler`, the
declared `Content-Length` is 40 but 43 body bytes follow the blank-line
separator (`msg`, then the builder's trailing `"\n"`, then the `" \n"` that
`write_handler` appends), so the serialized message is not
status line + headers + blank line + exactly `Content-Length` bytes. -/
theorem C1_cex :
    sepSplit (writeHandler get_handler)
      = (utf8Encode (pyStr "HTTP/1.1 200 Ok\r\nContent-Length: 40\r\nContent-Type: text/html"),
         utf8Encode (pyStr "You called GET, Not Sure what to do next\n \n"))
    ∧ (utf8Encode (pyStr "You called GET, Not Sure what to do next\n \n")).length = 43
    ∧ ¬ (43 = 40) := by
  refine ⟨by decide, by decide, by decide⟩

/-- C1 (amended): every response built by `_basic_ok` or `_basic_error` and
written by `write_handler` serializes as the status line and headers
(declaring `Content-Length` equal to the CHARACTER count of `msg`), the blank
line, then the UTF-8 bytes of `msg` followed by the three extra bytes
`"\n \n"`; hence at least `Content-Length + 3` body bytes always follow the
separator, never exactly `Content-Length`. -/
theorem C1_amended (msg rc : List Char) :
    writeHandler (basicOk msg rc)
      = utf8Encode (pyStr "HTTP/1.1 " ++ rc ++ pyStr "\r\nContent-Length: "
          ++ natToChars msg.length ++ pyStr "\r\nContent-Type: text/html\r\n\r\n")
        ++ (utf8Encode msg ++ [10, 32, 10])
    ∧ writeHandler (basicError msg rc)
      = utf8Encode (pyStr "HTTP/1.1 " ++ rc ++ pyStr "\r\nContent-Length: "
          ++ natToChars msg.length ++ pyStr "\r\nContent-Type: text/html\r\n\r\n")
        ++ (utf8Encode msg ++ [10, 32, 10])
    ∧ msg.length + 3 ≤ (utf8Encode msg ++ [10, 32, 10]).length := by
  have hlen : (if msg = [] then 0 else msg.length) = msg.length := by
    cases msg <;> simp
  have h1 : utf8Encode (pyStr "\n") = [10] := by decide
  have h2 : utf8Encode (pyStr " \n") = [32, 10] := by decide
  refine ⟨?_, ?_, ?_⟩
  · simp only [writeHandler, basicOk, hlen, List.append_assoc, utf8Encode_append, h1, h2]
    simp
  · simp only [writeHandler, basicError, hlen, List.append_assoc, utf8Encode_append, h1, h2]
    simp
  · have h := length_le_utf8Encode_length msg
    simp only [List.length_append, List.length_cons, List.length_nil]
    omega

/-- C2 (counterexample): an unknown method in a normally framed (CRLF)
request yields `"HTTP/1.1 400 Bad request"`, not a 405: after splitting on
`"\n"`, the request line keeps its trailing `"\r"`, so
`start_line[2] == "HTTP/1.1\r"` fails the version comparison. -/
theorem C2_cex :
    readHandler [] (utf8Encode (pyStr "PATCH / HTTP/1.1\r\nHost: x\r\n\r\n"))
      = Except.ok (pyStr "HTTP/1.1 400 Bad request")
    ∧ List.take 12 (pyStr "HTTP/1.1 400 Bad request") = pyStr "HTTP/1.1 400"
    ∧ ¬ (pyStr "HTTP/1.1 400" = pyStr "HTTP/1.1 405") := by
  refine ⟨rfl, by decide, by decide⟩

/-- C2 (amended): a request whose method token is not a key of `METHODS_MAP`
never invokes a handler; it gets the 405 reply (body `"I only support "`
followed by the interpolated `METHODS_MAP` repr, no `Allow` header) only when
the request line has at least three space-separated tokens and the third is
exactly `"HTTP/1.1"` (i.e. bare-LF framing), and otherwise — in particular
for any CRLF-framed request — the reply is `"HTTP/1.1 400 Bad request"`. -/
theorem C2_amended (mrepr : List Char) (b : List Nat) (s : List Char)
    (hdec : utf8Decode b = some s) (hm : firstToken s ∉ methods) :
    readHandler mrepr b = Except.ok
      (if 3 ≤ (startLineOf s).length ∧ (startLineOf s).get? 2 = some (pyStr "HTTP/1.1")
       then pyStr "HTTP/1.1 405 Method not allowed\nI only support " ++ mrepr ++ pyStr "\n\n"
       else pyStr "HTTP/1.1 400 Bad request") := by
  simp only [readHandler, hdec]
  unfold respond
  rw [if_neg hm]
  by_cases hA : (startLineOf s).length < 3
      ∨ ¬ ((startLineOf s).get? 2 = some (pyStr "HTTP/1.1"))
  · rw [if_pos hA, if_neg ?hB]
    case hB =>
      intro hB
      rcases hA with h | h
      · omega
      · exact h hB.2
  · rw [if_neg hA, if_pos ?hB2]
    case hB2 =>
      push_neg at hA
      exact ⟨by omega, hA.2⟩

/-- C2 (witness): a bare-LF `PATCH` request does reach the 405 branch. -/
theorem C2_amended_witness :
    readHandler (pyStr "MAP") (utf8Encode (pyStr "PATCH / HTTP/1.1\nHost: x\n\n"))
      = Except.ok (pyStr "HTTP/1.1 405 Method not allowed\nI only support MAP\n\n") := by
  have h := C2_amended (pyStr "MAP")
    (utf8Encode (pyStr "PATCH / HTTP/1.1\nHost: x\n\n"))
    (pyStr "PATCH / HTTP/1.1\nHost: x\n\n") (by decide) (by decide)
  rw [h]
  exact congrArg Except.ok (by decide)

/-- C3 (counterexample): a connection carrying two sequential GET requests
(neither declaring `Connection: close`) gets exactly one response, and the
session ends `Closed`, not `Idle`: the second request is never read. -/
theorem C3_cex :
    handleConnection []
        [utf8Encode (pyStr "GET / HTTP/1.1\r\nHost: a\r\n\r\n"),
         utf8Encode (pyStr "GET /two HTTP/1.1\r\nHost: a\r\n\r\n")]
      = Except.ok ([writeHandler get_handler], SessionState.Closed)
    ∧ ([writeHandler get_handler] : List (List Nat)).length = 1
    ∧ ¬ (SessionState.Closed = SessionState.Idle) := by
  refine ⟨rfl, by decide, by decide⟩

/-- C3 (amended): the session never returns to `Idle` on the same stream —
after at most one response the connection is closed (`write_handler` calls
`conn.close()` and the `with conn:` block exits), whatever the request said;
and the bytes a peer sends after the first `recv` are never read, so a second
request on a persistent connection gets no response. -/
theorem C3_amended :
    (∀ (mrepr : List Char) (chunks : List (List Nat))
        (res : List (List Nat) × SessionState),
        handleConnection mrepr chunks = Except.ok res →
        res.2 = SessionState.Closed ∧ res.1.length ≤ 1)
    ∧ (∀ (mrepr : List Char) (c : List Nat) (rest : List (List Nat)),
        handleConnection mrepr (c :: rest) = handleConnection mrepr [c]) := by
  constructor
  · intro mrepr chunks res h
    unfold handleConnection at h
    by_cases hd : chunks.headD [] = []
    · rw [if_pos hd] at h
      cases h
      exact ⟨rfl, by simp⟩
    · rw [if_neg hd] at h
      cases hr : readHandler mrepr (chunks.headD []) with
      | error e => rw [hr] at h; simp [Except.map] at h
      | ok r =>
        rw [hr] at h
        simp only [Except.map] at h
        cases h
        exact ⟨rfl, by simp⟩
  · intro mrepr c rest
    rfl

/-- C3 (witness): instantiating the amended claim at a concrete served
connection and at a concrete two-chunk stream. -/
theorem C3_amended_witness :
    (([writeHandler get_handler], SessionState.Closed).2 = SessionState.Closed
      ∧ ([writeHandler get_handler], SessionState.Closed).1.length ≤ 1)
    ∧ handleConnection [] [utf8Encode (pyStr "GET / HTTP/1.1\nHost: a\n\n"), [88]]
        = handleConnection [] [utf8Encode (pyStr "GET / HTTP/1.1\nHost: a\n\n")] := by
  refine ⟨C3_amended.1 [] [utf8Encode (pyStr "GET / HTTP/1.1\nHost: a\n\n")]
    ([writeHandler get_handler], SessionState.Closed) rfl,
    C3_amended.2 [] (utf8Encode (pyStr "GET / HTTP/1.1\nHost: a\n\n")) [[88]]⟩

/-- C4 (counterexample): the wire bytes for a HEAD response are not
header-only — three whitespace bytes `"\n \n"` follow the blank-line
separator, so the body is not zero bytes. -/
theorem C4_cex :
    readHandler [] (utf8Encode (pyStr "HEAD / HTTP/1.1\r\nHost: x\r\n\r\n"))
      = Except.ok head_handler
    ∧ (sepSplit (writeHandler head_handler)).2 = [10, 32, 10]
    ∧ ¬ (([10, 32, 10] : List Nat) = []) := by
  refine ⟨rfl, by decide, by decide⟩

/-- C4 (amended): every HEAD request gets `head_handler`'s constant response,
which declares `Content-Length: 0` (the length the suppressed body would have
had, since `head_handler` passes `""`); but the serialized message carries
the three whitespace bytes `"\n \n"` after the blank-line separator rather
than zero bytes — only the whitespace-stripped body is empty. -/
theorem C4_amended (mrepr : List Char) (b : List Nat) (s : List Char)
    (hdec : utf8Decode b = some s) (hm : firstToken s = pyStr "HEAD") :
    readHandler mrepr b = Except.ok head_handler
    ∧ head_handler
      = pyStr "HTTP/1.1 200 Ok\r\nContent-Length: 0\r\nContent-Type: text/html\r\n\r\n\n"
    ∧ sepSplit (writeHandler head_handler)
      = (utf8Encode (pyStr "HTTP/1.1 200 Ok\r\nContent-Length: 0\r\nContent-Type: text/html"),
         [10, 32, 10]) := by
  refine ⟨?_, by decide, by decide⟩
  simp only [readHandler, hdec]
  have hmem : firstToken s ∈ methods := by rw [hm]; decide
  rw [respond_of_mem mrepr s hmem, hm]
  rfl

/-- C4 (witness): the amended claim at a concrete HEAD request. -/
theorem C4_amended_witness :
    readHandler [] (utf8Encode (pyStr "HEAD /index HTTP/1.1\nHost: x\n\n"))
      = Except.ok head_handler := by
  exact (C4_amended [] (utf8Encode (pyStr "HEAD /index HTTP/1.1\nHost: x\n\n"))
    (pyStr "HEAD /index HTTP/1.1\nHost: x\n\n") (by decide) (by decide)).1

/-- C5 (counterexample): the scenario response does not begin with
`"HTTP/1.1 200 OK\r\n"`; the emitted reason phrase is `"200 Ok"`
(lowercase `k`), so the spec's stable string `"200 OK"` never matches. -/
theorem C5_cex :
    readHandler [] (utf8Encode (pyStr "GET / HTTP/1.1\r\nHost: x\r\n\r\n"))
      = Except.ok get_handler
    ∧ (pyStr "HTTP/1.1 200 OK\r\n").isPrefixOf get_handler = false
    ∧ (pyStr "HTTP/1.1 200 Ok\r\n").isPrefixOf get_handler = true := by
  refine ⟨rfl, by decide, by decide⟩

/-- C5 (amended): the scenario `GET / HTTP/1.1\r\nHost: x\r\n\r\n` yields
exactly `HTTP/1.1 200 Ok\r\nContent-Length: 40\r\nContent-Type:
text/html\r\n\r\n` followed by the body; the reason phrases are fixed
strings, but they are `"200 Ok"`, `"201 Created"`, `"204 No Content"`,
`"405 Method not allowed"` and `"400 Bad request"` — not the claim's
`"200 OK"` / `"400 Bad Request"` capitalizations. -/
theorem C5_amended :
    readHandler [] (utf8Encode (pyStr "GET / HTTP/1.1\r\nHost: x\r\n\r\n"))
      = Except.ok (pyStr "HTTP/1.1 200 Ok\r\nContent-Length: 40\r\nContent-Type: text/html\r\n\r\nYou called GET, Not Sure what to do next\n")
    ∧ (pyStr "HTTP/1.1 201 Created\r\n").isPrefixOf put_handler = true
    ∧ (pyStr "HTTP/1.1 204 No Content\r\n").isPrefixOf delete_handler = true
    ∧ (pyStr "HTTP/1.1 200 Ok\r\n").isPrefixOf post_handler = true := by
  refine ⟨rfl, by decide, by decide, by decide⟩

/-- C6 (counterexample): a request declaring `Content-Length: 10` with zero
body bytes is answered immediately with the full POST response — parsing
"completes" although fewer than N body bytes arrived — and supplying the
complete 10-byte body changes nothing. -/
theorem C6_cex :
    readHandler [] (utf8Encode (pyStr "POST / HTTP/1.1\nHost: x\nContent-Length: 10\n\n"))
      = Except.ok post_handler
    ∧ readHandler []
        (utf8Encode (pyStr "POST / HTTP/1.1\nHost: x\nContent-Length: 10\n\n0123456789"))
      = Except.ok post_handler := by
  exact ⟨rfl, rfl⟩

/-- C6 (amended): the server performs a single `recv` and never interprets
`Content-Length` or the body: the response is a function of the request's
first line alone, so messages agreeing on their first line — whatever
`Content-Length` they declare and however many body bytes follow — get the
same complete response, and no "need more bytes" signal exists. -/
theorem C6_amended (mrepr line t1 t2 : List Char) (h : '\n' ∉ line) :
    respond mrepr (line ++ '\n' :: t1) = respond mrepr (line ++ '\n' :: t2) := by
  unfold respond firstToken startLineOf linesOf
  rw [splitChar_head_append '\n' line t1 h, splitChar_head_append '\n' line t2 h]

/-- C6 (witness): the amended claim at a concrete first line, with an absent
versus a complete declared body. -/
theorem C6_amended_witness :
    respond [] (pyStr "POST / HTTP/1.1" ++ '\n' :: pyStr "Host: x\nContent-Length: 10\n\n")
      = respond []
          (pyStr "POST / HTTP/1.1" ++ '\n' :: pyStr "Host: x\nContent-Length: 10\n\n0123456789") := by
  exact C6_amended [] (pyStr "POST / HTTP/1.1")
    (pyStr "Host: x\nContent-Length: 10\n\n")
    (pyStr "Host: x\nContent-Length: 10\n\n0123456789") (by decide)

/-- C7 (counterexample): an HTTP/1.1 GET request with no `Host` header is
answered with the normal 200 response, not a 400-class one — the server
never inspects headers. -/
theorem C7_cex :
    readHandler [] (utf8Encode (pyStr "GET / HTTP/1.1\r\n\r\n")) = Except.ok get_handler
    ∧ (pyStr "HTTP/1.1 200 Ok").isPrefixOf get_handler = true
    ∧ (pyStr "HTTP/1.1 4").isPrefixOf get_handler = false := by
  refine ⟨rfl, by decide, by decide⟩

/-- C7 (amended): a request missing the `Host` header does receive a
structured HTTP response rather than a hard connection drop, but it is the
method's normal response (status `200 Ok` for GET), not a 400-class
response: headers, including `Host`, are never examined. -/
theorem C7_amended (mrepr : List Char) (b : List Nat) (s : List Char)
    (hdec : utf8Decode b = some s) (hm : firstToken s = pyStr "GET") :
    readHandler mrepr b = Except.ok get_handler
    ∧ (pyStr "HTTP/1.1 200 Ok").isPrefixOf get_handler = true
    ∧ (pyStr "HTTP/1.1 4").isPrefixOf get_handler = false := by
  refine ⟨?_, by decide, by decide⟩
  simp only [readHandler, hdec]
  have hmem : firstToken s ∈ methods := by rw [hm]; decide
  rw [respond_of_mem mrepr s hmem, hm]
  rfl

/-- C7 (witness): the amended claim at the concrete Host-less request. -/
theorem C7_amended_witness :
    readHandler [] (utf8Encode (pyStr "GET /a HTTP/1.1\r\n\r\n")) = Except.ok get_handler := by
  exact (C7_amended [] (utf8Encode (pyStr "GET /a HTTP/1.1\r\n\r\n"))
    (pyStr "GET /a HTTP/1.1\r\n\r\n") (by decide) (by decide)).1

/-- C8: the claim is right and the code is wrong.  `read_handler` evaluates
`data.decode("utf8")` before its `try` block (which anyway catches only
`TypeError`), so a non-UTF-8 buffer raises an uncaught `UnicodeDecodeError`
instead of producing a 400 response; the exception aborts the `serve` loop,
so later connections are never served either. -/
theorem C8_bug :
    readHandler [] [255] = Except.error PyError.unicodeDecodeError
    ∧ serveLoop [] [[255], utf8Encode (pyStr "GET / HTTP/1.1\r\nHost: x\r\n\r\n")]
      = ([], some (ServerExit.crashed PyError.unicodeDecodeError)) := by
  exact ⟨rfl, rfl⟩

/-- C9 (counterexample): two buffers both beginning with the bytes of
`"GET "` (the same supported method token) do not get identical results —
one receives the 200 response, the other (whose later bytes are not valid
UTF-8) raises `UnicodeDecodeError` and gets no response at all. -/
theorem C9_cex :
    readHandler [] (utf8Encode (pyStr "GET / HTTP/1.1\r\nHost: x\r\n\r\n"))
      = Except.ok get_handler
    ∧ readHandler [] [71, 69, 84, 32, 47, 255, 10]
      = Except.error PyError.unicodeDecodeError
    ∧ List.take 4 (utf8Encode (pyStr "GET / HTTP/1.1\r\nHost: x\r\n\r\n"))
      = List.take 4 [71, 69, 84, 32, 47, 255, 10]
    ∧ ¬ (Except.ok get_handler = (Except.error PyError.unicodeDecodeError : Except PyError (List Char))) := by
  refine ⟨rfl, rfl, by decide, fun h => Except.noConfusion h⟩

/-- C9 (amended): for any two buffers that decode as UTF-8 and whose decoded
first lines start with the same method token drawn from `METHODS_MAP`,
`read_handler` returns the identical response: target, version, headers and
body never influence it, every handler being argument-insensitive.  (The
UTF-8 proviso is needed: an undecodable buffer raises instead.) -/
theorem C9_amended (mrepr : List Char) (b1 b2 : List Nat) (s1 s2 : List Char)
    (h1 : utf8Decode b1 = some s1) (h2 : utf8Decode b2 = some s2)
    (ht : firstToken s1 = firstToken s2) (hm : firstToken s1 ∈ methods) :
    readHandler mrepr b1 = readHandler mrepr b2 := by
  simp only [readHandler, h1, h2]
  rw [respond_of_mem _ _ hm, respond_of_mem _ _ (ht ▸ hm), ht]

/-- C9 (witness): a GET with different target, version, headers and body
than the scenario request still gets the identical response. -/
theorem C9_amended_witness :
    readHandler [] (utf8Encode (pyStr "GET / HTTP/1.1\r\nHost: x\r\n\r\n"))
      = readHandler [] (utf8Encode (pyStr "GET /other HTTP/1.0\nX: y\n\nBODY")) := by
  exact C9_amended [] (utf8Encode (pyStr "GET / HTTP/1.1\r\nHost: x\r\n\r\n"))
    (utf8Encode (pyStr "GET /other HTTP/1.0\nX: y\n\nBODY"))
    (pyStr "GET / HTTP/1.1\r\nHost: x\r\n\r\n")
    (pyStr "GET /other HTTP/1.0\nX: y\n\nBODY")
    (by decide) (by decide) (by decide) (by decide)

/-- C10 (confirmed): if the first `recv` on an accepted connection returns
zero bytes, `serve` hits `break` and exits the accept loop — no response is
written for that connection and no later connection is ever served; while on
a connection whose `recv` yields data and whose `read_handler` returns a
response, the loop writes that response and continues with the remaining
connections unchanged. -/
theorem C10_stop :
    (∀ (mrepr : List Char) (rest : List (List Nat)),
        serveLoop mrepr ([] :: rest) = ([], some ServerExit.peerEmptyStop))
    ∧ (∀ (mrepr : List Char) (c : List Nat) (rest : List (List Nat)) (r : List Char),
        c ≠ [] → readHandler mrepr c = Except.ok r →
        serveLoop mrepr (c :: rest)
          = (writeHandler r :: (serveLoop mrepr rest).1, (serveLoop mrepr rest).2)) := by
  constructor
  · intro mrepr rest
    rfl
  · intro mrepr c rest r hc hr
    simp only [serveLoop, if_neg hc, hr]

/-- C10 (witness): the empty first `recv` stops the loop even with a pending
connection, and a served GET connection contributes exactly its response. -/
theorem C10_stop_witness :
    serveLoop [] ([] :: [utf8Encode (pyStr "GET / HTTP/1.1\r\nHost: x\r\n\r\n")])
      = ([], some ServerExit.peerEmptyStop)
    ∧ serveLoop [] (utf8Encode (pyStr "GET / HTTP/1.1\r\nHost: x\r\n\r\n") :: [[]])
      = (writeHandler get_handler :: (serveLoop [] [[]]).1, (serveLoop [] [[]]).2) := by
  refine ⟨C10_stop.1 [] _, C10_stop.2 []
    (utf8Encode (pyStr "GET / HTTP/1.1\r\nHost: x\r\n\r\n")) [[]] get_handler
    (by decide) rfl⟩
